import Mathlib

/-!
Verification of the deterministic fiscal validation and calculation engine
(`fiscal_validator.py` and `fiscal_calculator.py`).

Modelling conventions of the shallow embedding:
* A value that Python obtains by stripping non-digits from a string is
  modelled as a `List Nat` of decimal digits; `stripNonDigits` performs the
  stripping on a `String`.
* Monetary amounts are modelled as exact rationals (`ℚ`).  The source mixes
  Python `Decimal` (exact decimal arithmetic) with `float` round trips through
  `Decimal(str(x))`; both are represented by the exact rational value.
  `quantizeHU` is `Decimal.quantize(Decimal('0.01'), ROUND_HALF_UP)` and
  `quantizeHE` is Python's `round(d, 2)` on a `Decimal` (banker's rounding,
  `ROUND_HALF_EVEN`).
* A possibly absent field (`None` in a Python dict, or a missing key) is an
  `Option`; `.get` with no default is `Option` access, `_safe_float` /
  `_safe_decimal` become `Option.getD`.
-/

namespace Fiscal

/-- Digits of a string, keeping only `0`-`9` characters, as numbers.
Models `re.sub(r'[^0-9]', '', s)` followed by per-character `int(...)`. -/
def stripNonDigits (s : String) : List Nat :=
  s.toList.filterMap (fun c => if c.isDigit then some (c.toNat - 48) else none)

/-- Weighted sum of a digit list against a weight list, truncating at the
shorter list: models `sum(int(ds[i]) * ws[i] for i in range(len(ws)))` for
digit strings at least as long as the weight list. -/
def weightedSum : List Nat → List Nat → Nat
  | d :: ds, w :: ws => d * w + weightedSum ds ws
  | _, _ => 0

/-- Check digit from a weighted sum: `0` if `sum % 11 < 2`, else
`11 - sum % 11`. -/
def checkDigitMod11 (s : Nat) : Nat :=
  if s % 11 < 2 then 0 else 11 - s % 11

/-- First CNPJ weight list (`weight_1` in `validate_cnpj`). -/
def cnpjWeight1 : List Nat := [5, 4, 3, 2, 9, 8, 7, 6, 5, 4, 3, 2]

/-- Second CNPJ weight list (`weight_2` in `validate_cnpj`). -/
def cnpjWeight2 : List Nat := [6, 5, 4, 3, 2, 9, 8, 7, 6, 5, 4, 3, 2]

/-- First CNPJ check digit computed from the first 12 digits. -/
def cnpjDigit1 (ds : List Nat) : Nat := checkDigitMod11 (weightedSum ds cnpjWeight1)

/-- Second CNPJ check digit computed from the first 13 digits. -/
def cnpjDigit2 (ds : List Nat) : Nat := checkDigitMod11 (weightedSum ds cnpjWeight2)

/-- Membership test `cnpj_clean in [d * 14 for d in '0123456789']`. -/
def isRepdigit (n : Nat) (ds : List Nat) : Bool :=
  (List.range 10).any (fun d => ds == List.replicate n d)

/-- Core of `FiscalValidator.validate_cnpj`, on the stripped digit list. -/
def validateCnpjDigits (ds : List Nat) : Bool × String :=
  if ds.length ≠ 14 then
    (false, "CNPJ deve ter 14 dígitos (encontrado: " ++ toString ds.length ++ ")")
  else if isRepdigit 14 ds then
    (false, "CNPJ com todos os dígitos iguais é inválido")
  else if ds.getD 12 0 ≠ cnpjDigit1 ds then
    (false, "Primeiro dígito verificador inválido")
  else if ds.getD 13 0 ≠ cnpjDigit2 ds then
    (false, "Segundo dígito verificador inválido")
  else
    (true, "CNPJ válido")

/-- `FiscalValidator.validate_cnpj`. -/
def validate_cnpj (cnpj : String) : Bool × String :=
  validateCnpjDigits (stripNonDigits cnpj)

/-- First CPF weight list (`10 - i` for `i < 9`). -/
def cpfWeight1 : List Nat := [10, 9, 8, 7, 6, 5, 4, 3, 2]

/-- Second CPF weight list (`11 - i` for `i < 10`). -/
def cpfWeight2 : List Nat := [11, 10, 9, 8, 7, 6, 5, 4, 3, 2]

/-- Core of `FiscalValidator.validate_cpf`, on the stripped digit list. -/
def validateCpfDigits (ds : List Nat) : Bool × String :=
  if ds.length ≠ 11 then
    (false, "CPF deve ter 11 dígitos (encontrado: " ++ toString ds.length ++ ")")
  else if isRepdigit 11 ds then
    (false, "CPF com todos os dígitos iguais é inválido")
  else if ds.getD 9 0 ≠ checkDigitMod11 (weightedSum ds cpfWeight1) then
    (false, "Primeiro dígito verificador inválido")
  else if ds.getD 10 0 ≠ checkDigitMod11 (weightedSum ds cpfWeight2) then
    (false, "Segundo dígito verificador inválido")
  else
    (true, "CPF válido")

/-- `FiscalValidator.validate_cpf`. -/
def validate_cpf (cpf : String) : Bool × String :=
  validateCpfDigits (stripNonDigits cpf)

/-- Decomposed access-key fields (`details` in `validate_chave_acesso`),
kept as digit lists. -/
structure ChaveDetails where
  uf : List Nat
  ano_mes : List Nat
  cnpj : List Nat
  modelo : List Nat
  serie : List Nat
  numero : List Nat
  tipo_emissao : List Nat
  codigo : List Nat
  dv : List Nat
  deriving Repr, DecidableEq

/-- Slice `ds[a:b]` of a digit list. -/
def slice (ds : List Nat) (a b : Nat) : List Nat := (ds.drop a).take (b - a)

/-- The 43 access-key weights: `list(range(2, 10)) * 5 + [2, 3, 4]`. -/
def chaveWeights : List Nat :=
  (List.replicate 5 [2, 3, 4, 5, 6, 7, 8, 9]).flatten ++ [2, 3, 4]

/-- Weighted sum `sum(int(chave[i]) * weights[42 - i] for i in range(43))`. -/
def chaveSum (ds : List Nat) : Nat :=
  (List.range 43).foldl (fun acc i => acc + ds.getD i 0 * chaveWeights.getD (42 - i) 0) 0

/-- Expected access-key check digit: `0` if `sum % 11 in [0, 1]`, else
`11 - sum % 11` (same computation as `checkDigitMod11`). -/
def chaveExpectedDv (ds : List Nat) : Nat :=
  if chaveSum ds % 11 = 0 ∨ chaveSum ds % 11 = 1 then 0 else 11 - chaveSum ds % 11

/-- Core of `FiscalValidator.validate_chave_acesso`, on the stripped digit
list. -/
def validateChaveDigits (ds : List Nat) : Bool × String × ChaveDetails :=
  if ds.length ≠ 44 then
    (false, "Chave deve ter 44 dígitos (encontrado: " ++ toString ds.length ++ ")",
      ⟨[], [], [], [], [], [], [], [], []⟩)
  else
    let details : ChaveDetails :=
      ⟨slice ds 0 2, slice ds 2 6, slice ds 6 20, slice ds 20 22, slice ds 22 25,
        slice ds 25 34, slice ds 34 35, slice ds 35 43, slice ds 43 44⟩
    if ds.getD 43 0 ≠ chaveExpectedDv ds then
      (false, "Dígito verificador inválido (esperado: " ++
        toString (chaveExpectedDv ds) ++ ")", details)
    else
      (true, "Chave de acesso válida", details)

/-- `FiscalValidator.validate_chave_acesso`. -/
def validate_chave_acesso (chave : String) : Bool × String × ChaveDetails :=
  validateChaveDigits (stripNonDigits chave)

/-- `FiscalValidator.validate_ncm`: exactly 8 digits after stripping. -/
def validate_ncm (ncm : String) : Bool × String :=
  let ds := stripNonDigits ncm
  if ds.length ≠ 8 then
    (false, "NCM deve ter 8 dígitos (encontrado: " ++ toString ds.length ++ ")")
  else
    (true, "NCM válido")

/-- Details of `validate_cfop`. -/
structure CfopDetails where
  tipo_operacao : String
  natureza : String
  deriving Repr, DecidableEq

/-- `FiscalValidator.validate_cfop`: 4 digits, first digit gives the
operation direction. -/
def validate_cfop (cfop : String) : Bool × String × CfopDetails :=
  let ds := stripNonDigits cfop
  if ds.length ≠ 4 then
    (false, "CFOP deve ter 4 dígitos (encontrado: " ++ toString ds.length ++ ")",
      ⟨"", ""⟩)
  else
    let d := ds.getD 0 0
    if d = 1 ∨ d = 2 ∨ d = 3 then
      (true, "CFOP válido",
        ⟨"entrada",
          if d = 1 then "entrada_dentro_estado"
          else if d = 2 then "entrada_outros_estados"
          else "entrada_exterior"⟩)
    else if d = 5 ∨ d = 6 ∨ d = 7 then
      (true, "CFOP válido",
        ⟨"saida",
          if d = 5 then "saida_dentro_estado"
          else if d = 6 then "saida_outros_estados"
          else "saida_exterior"⟩)
    else
      (false, "Primeiro dígito do CFOP inválido: " ++ toString d, ⟨"", ""⟩)

/-- Round to an integer, halves away from zero: `Decimal` `ROUND_HALF_UP`. -/
def roundHU (q : ℚ) : ℤ := if 0 ≤ q then ⌊q + 1 / 2⌋ else -⌊-q + 1 / 2⌋

/-- Quantize to 2 decimal places with `ROUND_HALF_UP`: models
`d.quantize(Decimal('0.01'), rounding=ROUND_HALF_UP)`. -/
def quantizeHU (q : ℚ) : ℚ := (roundHU (q * 100) : ℚ) / 100

/-- Round to an integer, halves to even: the default `Decimal` context
rounding used by Python's `round(d, n)`. -/
def roundHE (q : ℚ) : ℤ :=
  let n := ⌊q⌋
  let r := q - n
  if r < 1 / 2 then n
  else if 1 / 2 < r then n + 1
  else if n % 2 = 0 then n else n + 1

/-- Quantize to 2 decimal places with `ROUND_HALF_EVEN`: models
`round(d, 2)` on a Python `Decimal`. -/
def quantizeHE (q : ℚ) : ℚ := (roundHE (q * 100) : ℚ) / 100

/-- Two-decimal rendering of a rational, used for the `f'{x:.2f}'`
interpolations in finding messages. -/
def fmt2 (q : ℚ) : String :=
  let c := roundHE (q * 100)
  let a := c.natAbs
  (if c < 0 then "-" else "") ++ toString (a / 100) ++ "." ++
    (if a % 100 < 10 then "0" else "") ++ toString (a % 100)

/-- `FiscalValidator._safe_float`: `None` becomes the default; numeric values
are modelled as exact rationals. -/
def safe_float (value : Option ℚ) (default : ℚ := 0) : ℚ := value.getD default

/-- Details of `validate_product_calculation`. -/
structure ProdCalcDetails where
  quantidade : ℚ
  valor_unitario : ℚ
  valor_declarado : ℚ
  valor_calculado : ℚ
  diferenca : ℚ
  deriving Repr, DecidableEq

/-- `FiscalValidator.validate_product_calculation`: the expected line total is
`round(Decimal(str(q)) * Decimal(str(u)), 2)` and the check passes iff the
absolute difference to the declared total does not exceed the tolerance. -/
def validate_product_calculation (quantidade valor_unitario valor_total : ℚ)
    (produto_desc : String := "Produto") (tolerance : ℚ := 2 / 100) :
    Bool × String × ProdCalcDetails :=
  let expected_total := quantizeHE (quantidade * valor_unitario)
  let difference := |expected_total - valor_total|
  let details : ProdCalcDetails :=
    ⟨quantidade, valor_unitario, valor_total, expected_total, difference⟩
  if difference > tolerance then
    (false, produto_desc ++ ": Valor total incorreto (esperado: R$ " ++
      fmt2 expected_total ++ ", declarado: R$ " ++ fmt2 valor_total ++ ")", details)
  else
    (true, produto_desc ++ ": Cálculo correto", details)

/-- Details of `validate_tax_calculation`; `none` models the empty dict the
zero-base branches return. -/
structure TaxCalcDetails where
  base_calculo : ℚ
  aliquota : ℚ
  valor_calculado : ℚ
  valor_declarado : ℚ
  diferenca : ℚ
  deriving Repr, DecidableEq

/-- `FiscalValidator.validate_tax_calculation`. -/
def validate_tax_calculation (base_calculo aliquota valor_imposto : ℚ)
    (tipo_imposto : String) (tolerance : ℚ := 2 / 100) :
    Bool × String × Option TaxCalcDetails :=
  if base_calculo = 0 then
    if valor_imposto = 0 then
      (true, tipo_imposto ++ ": Sem base de cálculo (correto)", none)
    else
      (false, tipo_imposto ++ ": Base zero mas imposto declarado", none)
  else
    let expected_tax := quantizeHE (base_calculo * aliquota / 100)
    let difference := |expected_tax - valor_imposto|
    let details : TaxCalcDetails :=
      ⟨base_calculo, aliquota, expected_tax, valor_imposto, difference⟩
    if difference > tolerance then
      (false, tipo_imposto ++ ": Valor incorreto (esperado: R$ " ++
        fmt2 expected_tax ++ ", declarado: R$ " ++ fmt2 valor_imposto ++ ")",
        some details)
    else
      (true, tipo_imposto ++ ": Cálculo correto", some details)

/-- The validator's `tax_rates['icms_interno']` table. -/
def validatorIcmsInterno : List (String × ℚ) :=
  [("PR", 19.5), ("SC", 17.0), ("RS", 17.0), ("SP", 18.0), ("RJ", 20.0),
   ("MG", 18.0), ("ES", 17.0), ("AC", 19.0), ("AM", 20.0), ("AP", 18.0),
   ("PA", 19.0), ("RO", 19.5), ("RR", 20.0), ("TO", 20.0), ("AL", 19.0),
   ("BA", 20.5), ("CE", 20.0), ("MA", 23.0), ("PB", 20.0), ("PE", 20.5),
   ("PI", 22.5), ("RN", 20.0), ("SE", 18.0), ("DF", 20.0), ("GO", 19.0),
   ("MT", 17.0), ("MS", 17.0)]

/-- ASCII upper-casing, modelling Python `str.upper()` on the inputs used
here (state codes, document-type tags). -/
def strUpper (s : String) : String := ⟨s.data.map Char.toUpper⟩

/-- ASCII lower-casing, modelling Python `str.lower()`. -/
def strLower (s : String) : String := ⟨s.data.map Char.toLower⟩

/-- `FiscalValidator.get_icms_aliquota` for the `'interno'` operation type
 (the only one the validator uses): table lookup with default 18.0. -/
def get_icms_aliquota (uf : String) : ℚ :=
  ((validatorIcmsInterno.find? (fun p => p.1 == strUpper uf)).map (·.2)).getD 18.0

/-- Details of `validate_total_sum`. -/
structure SumDetails where
  soma_calculada : ℚ
  total_declarado : ℚ
  diferenca : ℚ
  deriving Repr, DecidableEq

/-- `FiscalValidator.validate_total_sum`. -/
def validate_total_sum (items_total declared_total : ℚ)
    (field_name : String := "Total") (tolerance : ℚ := 2 / 100) :
    Bool × String × SumDetails :=
  let difference := |items_total - declared_total|
  let details : SumDetails := ⟨items_total, declared_total, difference⟩
  if difference > tolerance then
    (false, field_name ++ ": Soma incorreta (calculado: R$ " ++ fmt2 items_total ++
      ", declarado: R$ " ++ fmt2 declared_total ++ ")", details)
  else
    (true, field_name ++ ": Soma correta", details)

/-- Per-item tax amounts (`produto['impostos']`); each independently
possibly absent. -/
structure ImpostosProduto where
  icms : Option ℚ := none
  pis : Option ℚ := none
  cofins : Option ℚ := none
  deriving Repr, DecidableEq

/-- One line item (`produto` dict). -/
structure Produto where
  codigo : Option String := none
  descricao : Option String := none
  ncm : Option String := none
  cfop : Option String := none
  quantidade : Option ℚ := none
  valor_unitario : Option ℚ := none
  valor_total : Option ℚ := none
  impostos : ImpostosProduto := {}
  deriving Repr, DecidableEq

/-- The `totais` section of an invoice. -/
structure Totais where
  valor_produtos : Option ℚ := none
  valor_total_nf : Option ℚ := none
  base_calculo_icms : Option ℚ := none
  valor_icms : Option ℚ := none
  aliquota_icms : Option ℚ := none
  base_calculo_pis : Option ℚ := none
  valor_pis : Option ℚ := none
  aliquota_pis : Option ℚ := none
  base_calculo_cofins : Option ℚ := none
  valor_cofins : Option ℚ := none
  aliquota_cofins : Option ℚ := none
  valor_ipi : Option ℚ := none
  deriving Repr, DecidableEq

/-- The `emitente` section.  `uf` is the validator's `emitente['uf']`;
`endereco_uf` is the calculator's `emitente['endereco']['uf']`. -/
structure Emitente where
  cnpj : Option String := none
  razao_social : Option String := none
  uf : Option String := none
  endereco_uf : Option String := none
  deriving Repr, DecidableEq

/-- The `destinatario` section. -/
structure Destinatario where
  tipo_documento : Option String := none
  documento : Option String := none
  endereco_uf : Option String := none
  deriving Repr, DecidableEq

/-- The `identificacao` section. -/
structure Identificacao where
  chave_acesso : Option String := none
  tipo_operacao : Option String := none
  data_emissao : Option String := none
  deriving Repr, DecidableEq

/-- One structured invoice record (`invoice_data`). -/
structure Invoice where
  identificacao : Identificacao := {}
  emitente : Emitente := {}
  destinatario : Destinatario := {}
  produtos : List Produto := []
  totais : Totais := {}
  deriving Repr, DecidableEq

/-- A validation finding (`ValidationError` class; `to_dict` is the
identity on this representation). -/
structure VError where
  severity : String
  category : String
  field : String
  description : String
  current_value : Option String := none
  expected_value : Option String := none
  suggestion : Option String := none
  deriving Repr, DecidableEq

/-- Findings appended by `FiscalValidator._validate_documents`, split as
 (errors, warnings). -/
def validateDocumentsFindings (inv : Invoice) : List VError × List VError :=
  let cnpjErrs :=
    match inv.emitente.cnpj with
    | some c =>
      if c ≠ "" then
        let r := validate_cnpj c
        if !r.1 then
          [⟨"critico", "documento", "emitente.cnpj", r.2, some c, none,
            some "Verifique se o CNPJ está correto"⟩]
        else []
      else []
    | none => []
  let tipo_doc := strLower (inv.destinatario.tipo_documento.getD "")
  let documento := inv.destinatario.documento.getD ""
  let destErrs :=
    if tipo_doc = "cnpj" ∧ documento ≠ "" then
      let r := validate_cnpj documento
      if !r.1 then
        [⟨"critico", "documento", "destinatario.documento", r.2, some documento,
          none, some "Verifique se o CNPJ está correto"⟩]
      else []
    else if tipo_doc = "cpf" ∧ documento ≠ "" then
      let r := validate_cpf documento
      if !r.1 then
        [⟨"erro", "documento", "destinatario.documento", r.2, some documento,
          none, some "Verifique se o CPF está correto"⟩]
      else []
    else if documento ≠ "" ∧ tipo_doc = "" then
      let n := (stripNonDigits documento).length
      if n = 14 then
        let r := validate_cnpj documento
        if !r.1 then
          [⟨"critico", "documento", "destinatario.documento", r.2,
            some documento, none, some "Verifique se o CNPJ está correto"⟩]
        else []
      else if n = 11 then
        let r := validate_cpf documento
        if !r.1 then
          [⟨"erro", "documento", "destinatario.documento", r.2, some documento,
            none, some "Verifique se o CPF está correto"⟩]
        else []
      else []
    else []
  match inv.identificacao.chave_acesso with
  | none =>
    (cnpjErrs ++ destErrs,
      [⟨"aviso", "identificacao", "identificacao.chave_acesso",
        "Chave de acesso não informada", some "None", some "44 dígitos",
        some "Informe a chave de acesso da NF-e"⟩])
  | some chave =>
    if chave ≠ "" then
      let r := validate_chave_acesso chave
      if !r.1 then
        (cnpjErrs ++ destErrs ++
          [⟨"critico", "identificacao", "identificacao.chave_acesso", r.2.1,
            some chave, none, some "Verifique a chave de acesso da NF-e"⟩], [])
      else (cnpjErrs ++ destErrs, [])
    else (cnpjErrs ++ destErrs, [])

/-- Findings appended by `FiscalValidator._validate_fiscal_codes` for one
enumerated product, split as (errors, warnings). -/
def fiscalCodesProduct (i : Nat) (p : Produto) : List VError × List VError :=
  let ncmWarns : List VError :=
    match p.ncm with
    | none =>
      [⟨"aviso", "codigo_fiscal", "produtos[" ++ toString i ++ "].ncm",
        "NCM não informado", some "None", some "8 dígitos",
        some "Informe o código NCM do produto"⟩]
    | some n =>
      if n ≠ "" then
        let r := validate_ncm n
        if !r.1 then
          [⟨"aviso", "codigo_fiscal", "produtos[" ++ toString i ++ "].ncm",
            r.2, some n, some "8 dígitos",
            some "Verifique o código NCM do produto"⟩]
        else []
      else []
  let cfopFindings : List VError × List VError :=
    match p.cfop with
    | none =>
      (([] : List VError),
        [⟨"aviso", "codigo_fiscal", "produtos[" ++ toString i ++ "].cfop",
          "CFOP não informado", some "None", some "4 dígitos",
          some "Informe o código CFOP da operação"⟩])
    | some c =>
      if c ≠ "" then
        let r := validate_cfop c
        if !r.1 then
          ([⟨"erro", "codigo_fiscal", "produtos[" ++ toString i ++ "].cfop",
            r.2.1, some c, some "4 dígitos", some "Verifique o código CFOP"⟩],
            [])
        else ([], [])
      else ([], [])
  (cfopFindings.1, ncmWarns ++ cfopFindings.2)

/-- Findings appended by `FiscalValidator._validate_fiscal_codes`. -/
def validateFiscalCodesFindings (inv : Invoice) : List VError × List VError :=
  ((inv.produtos.enum.map (fun ip => (fiscalCodesProduct ip.1 ip.2).1)).flatten,
   (inv.produtos.enum.map (fun ip => (fiscalCodesProduct ip.1 ip.2).2)).flatten)

/-- Errors appended by `FiscalValidator._validate_products_calculations` for
one enumerated product: the arithmetic check runs only when at least one of
quantity, unit price and line total is strictly positive. -/
def productCalcFindings (i : Nat) (p : Produto) : List VError :=
  let qtd := safe_float p.quantidade
  let val_unit := safe_float p.valor_unitario
  let val_total := safe_float p.valor_total
  let desc := p.descricao.getD ("Produto " ++ toString (i + 1))
  if qtd > 0 ∨ val_unit > 0 ∨ val_total > 0 then
    let r := validate_product_calculation qtd val_unit val_total desc
    if !r.1 then
      [⟨"erro", "calculo", "produtos[" ++ toString i ++ "].valor_total", r.2.1,
        some ("R$ " ++ fmt2 val_total), some ("R$ " ++ fmt2 r.2.2.valor_calculado),
        some ("Corrija o valor total para R$ " ++ fmt2 r.2.2.valor_calculado)⟩]
    else []
  else []

/-- Errors appended by `FiscalValidator._validate_products_calculations`. -/
def validateProductsCalculationsFindings (inv : Invoice) : List VError :=
  (inv.produtos.enum.map (fun ip => productCalcFindings ip.1 ip.2)).flatten

/-- The ICMS block of `FiscalValidator._validate_tax_calculations`, split
as (errors, warnings). -/
def icmsTaxFindings (inv : Invoice) : List VError × List VError :=
  let totais := inv.totais
  let uf_emitente := strUpper (inv.emitente.uf.getD "")
  let base_icms := safe_float totais.base_calculo_icms
  let valor_icms := safe_float totais.valor_icms
  let aliquota_icms_declarada := safe_float totais.aliquota_icms
  if base_icms > 0 ∧ valor_icms > 0 then
    let aliquota_esperada := get_icms_aliquota uf_emitente
    if aliquota_icms_declarada > 0 then
      let r := validate_tax_calculation base_icms aliquota_icms_declarada
        valor_icms "ICMS"
      let errs : List VError :=
        if !r.1 then
          [⟨"erro", "imposto", "totais.valor_icms", r.2.1,
            some ("R$ " ++ fmt2 valor_icms),
            some ("R$ " ++ fmt2 ((r.2.2.map (·.valor_calculado)).getD 0)),
            some "Verifique o cálculo do ICMS"⟩]
        else []
      let warns : List VError :=
        if ¬(7 ≤ aliquota_icms_declarada ∧ aliquota_icms_declarada ≤ 25) then
          [⟨"aviso", "imposto", "totais.aliquota_icms",
            "Alíquota de ICMS incomum: " ++ fmt2 aliquota_icms_declarada ++
              "% (esperado para " ++ uf_emitente ++ ": " ++
              fmt2 aliquota_esperada ++ "%)",
            some (fmt2 aliquota_icms_declarada ++ "%"),
            some (fmt2 aliquota_esperada ++ "%"),
            some "Verifique se a alíquota está correta para o tipo de produto"⟩]
        else []
      (errs, warns)
    else
      let r := validate_tax_calculation base_icms aliquota_esperada valor_icms
        ("ICMS (esperado " ++ fmt2 aliquota_esperada ++ "% para " ++
          uf_emitente ++ ")")
      if !r.1 then
        ([⟨"erro", "imposto", "totais.valor_icms", r.2.1,
          some ("R$ " ++ fmt2 valor_icms),
          some ("R$ " ++ fmt2 ((r.2.2.map (·.valor_calculado)).getD 0)),
          some ("Verifique o cálculo do ICMS para " ++ uf_emitente)⟩], [])
      else ([], [])
  else ([], [])

/-- The PIS block of `FiscalValidator._validate_tax_calculations`, split as
 (errors, warnings). -/
def pisTaxFindings (inv : Invoice) : List VError × List VError :=
  let totais := inv.totais
  let base_pis := safe_float totais.base_calculo_pis
  let valor_pis := safe_float totais.valor_pis
  let aliquota_pis0 := safe_float totais.aliquota_pis
  if base_pis > 0 ∧ valor_pis > 0 then
    let aliquota_pis := if aliquota_pis0 = 0 then (1.65 : ℚ) else aliquota_pis0
    let r := validate_tax_calculation base_pis aliquota_pis valor_pis "PIS"
    let errs : List VError :=
      if !r.1 then
        [⟨"erro", "imposto", "totais.valor_pis", r.2.1,
          some ("R$ " ++ fmt2 valor_pis),
          some ("R$ " ++ fmt2 ((r.2.2.map (·.valor_calculado)).getD 0)),
          some "Verifique o cálculo do PIS"⟩]
      else []
    let warns : List VError :=
      if ¬(aliquota_pis = 0.65 ∨ aliquota_pis = 1.65) then
        [⟨"aviso", "imposto", "totais.aliquota_pis",
          "Alíquota de PIS incomum: " ++ fmt2 aliquota_pis ++
            "% (esperado: 0,65% ou 1,65%)",
          some (fmt2 aliquota_pis ++ "%"), some "0,65% ou 1,65%",
          some "Verifique se é regime cumulativo (0,65%) ou não-cumulativo (1,65%)"⟩]
      else []
    (errs, warns)
  else ([], [])

/-- The COFINS block of `FiscalValidator._validate_tax_calculations`, split
as (errors, warnings). -/
def cofinsTaxFindings (inv : Invoice) : List VError × List VError :=
  let totais := inv.totais
  let base_cofins := safe_float totais.base_calculo_cofins
  let valor_cofins := safe_float totais.valor_cofins
  let aliquota_cofins0 := safe_float totais.aliquota_cofins
  if base_cofins > 0 ∧ valor_cofins > 0 then
    let aliquota_cofins := if aliquota_cofins0 = 0 then (7.6 : ℚ) else aliquota_cofins0
    let r := validate_tax_calculation base_cofins aliquota_cofins valor_cofins
      "COFINS"
    let errs : List VError :=
      if !r.1 then
        [⟨"erro", "imposto", "totais.valor_cofins", r.2.1,
          some ("R$ " ++ fmt2 valor_cofins),
          some ("R$ " ++ fmt2 ((r.2.2.map (·.valor_calculado)).getD 0)),
          some "Verifique o cálculo do COFINS"⟩]
      else []
    let warns : List VError :=
      if ¬(aliquota_cofins = 3.0 ∨ aliquota_cofins = 7.6) then
        [⟨"aviso", "imposto", "totais.aliquota_cofins",
          "Alíquota de COFINS incomum: " ++ fmt2 aliquota_cofins ++
            "% (esperado: 3,0% ou 7,6%)",
          some (fmt2 aliquota_cofins ++ "%"), some "3,0% ou 7,6%",
          some "Verifique se é regime cumulativo (3,0%) ou não-cumulativo (7,6%)"⟩]
      else []
    (errs, warns)
  else ([], [])

/-- Findings appended by `FiscalValidator._validate_tax_calculations` (the
three tax blocks run in sequence), split as (errors, warnings). -/
def validateTaxCalculationsFindings (inv : Invoice) : List VError × List VError :=
  ((icmsTaxFindings inv).1 ++ (pisTaxFindings inv).1 ++ (cofinsTaxFindings inv).1,
   (icmsTaxFindings inv).2 ++ (pisTaxFindings inv).2 ++ (cofinsTaxFindings inv).2)

/-- Findings appended by `FiscalValidator._validate_totals`, split as
 (errors, warnings). -/
def validateTotalsFindings (inv : Invoice) : List VError × List VError :=
  let sum_produtos := inv.produtos.foldl (fun a p => a + safe_float p.valor_total) 0
  let valor_produtos := safe_float inv.totais.valor_produtos
  let errs : List VError :=
    if sum_produtos > 0 ∨ valor_produtos > 0 then
      let r := validate_total_sum sum_produtos valor_produtos "Valor dos Produtos"
      if !r.1 then
        [⟨"erro", "totalizador", "totais.valor_produtos", r.2.1,
          some ("R$ " ++ fmt2 valor_produtos), some ("R$ " ++ fmt2 sum_produtos),
          some ("Corrija para R$ " ++ fmt2 sum_produtos)⟩]
      else []
    else []
  let warns : List VError :=
    if inv.totais.valor_produtos = none ∧ inv.produtos.length > 0 then
      [⟨"aviso", "totalizador", "totais.valor_produtos",
        "Campo valor_produtos está ausente", some "None",
        some ("R$ " ++ fmt2 sum_produtos),
        some "Preencha o campo com o valor correto"⟩]
    else []
  (errs, warns)

/-- Findings appended by `FiscalValidator._validate_consistency`, split as
 (errors, warnings): with an absent operation type the product loop is
skipped with a single warning. -/
def validateConsistencyFindings (inv : Invoice) : List VError × List VError :=
  match inv.identificacao.tipo_operacao with
  | none =>
    ([], [⟨"aviso", "identificacao", "identificacao.tipo_operacao",
      "Tipo de operação não informado", some "None", some "entrada ou saida",
      some "Informe o tipo de operação da nota"⟩])
  | some t =>
    let tipo_op := strLower t
    let errs : List VError :=
      (inv.produtos.enum.map (fun ip =>
        match ip.2.cfop with
        | some c =>
          if c ≠ "" then
            let r := validate_cfop c
            if r.1 ∧ r.2.2.tipo_operacao ≠ "" ∧ r.2.2.tipo_operacao ≠ tipo_op then
              [(⟨"erro", "consistencia", "produtos[" ++ toString ip.1 ++ "].cfop",
                "CFOP " ++ c ++ " indica " ++ r.2.2.tipo_operacao ++
                  " mas nota é de " ++ tipo_op,
                some c, none, some ("Use CFOP compatível com " ++ tipo_op)⟩ : VError)]
            else []
          else []
        | none => [])).flatten
    (errs, [])

/-- The `validacao_geral` block of the compiled report. -/
structure ValidacaoGeral where
  status : String
  score_conformidade : ℤ
  total_erros_criticos : Nat
  total_erros : ℤ
  total_avisos : Nat
  apto_para_processamento : Bool
  deriving Repr, DecidableEq

/-- The compiled validation report (`_compile_validation_result` result). -/
structure Report where
  validacao_geral : ValidacaoGeral
  problemas : List VError
  timestamp : String
  validador : String
  deriving Repr, DecidableEq

/-- `FiscalValidator._compile_validation_result`, as a function of the
accumulated findings and of the timestamp `datetime.now().isoformat()`. -/
def compile_validation_result (errors warnings : List VError)
    (now : String) : Report :=
  let total_errors :=
    (errors.filter (fun e => e.severity == "critico" || e.severity == "erro")).length
  let total_warnings :=
    (errors.filter (fun e => e.severity == "aviso")).length + warnings.length
  let total_critical :=
    (errors.filter (fun e => e.severity == "critico")).length
  let score : ℤ :=
    max 0 (100 - (total_critical : ℤ) * 25 -
      ((total_errors : ℤ) - (total_critical : ℤ)) * 10 - (total_warnings : ℤ) * 3)
  let sa : String × Bool :=
    if total_critical > 0 then ("invalido", false)
    else if total_errors > 0 then ("invalido", false)
    else if total_warnings > 0 then ("com_avisos", true)
    else ("valido", true)
  { validacao_geral :=
      ⟨sa.1, score, total_critical, (total_errors : ℤ) - (total_critical : ℤ),
        total_warnings, sa.2⟩,
    problemas := errors ++ warnings,
    timestamp := now,
    validador := "FiscalValidator v2.0 (Corrigido e Atualizado 2024-2025)" }

/-- `FiscalValidator.validate_invoice`.  The instance state (`self.errors`,
`self.warnings`) is threaded explicitly: the incoming state is the pair the
object holds before the call (the method resets both lists on entry), and
the returned state is what the object holds afterwards.  `now` is the wall
clock read by `datetime.now().isoformat()` during the call. -/
def validate_invoice (now : String) (st : List VError × List VError)
    (inv : Invoice) : (List VError × List VError) × Report :=
  let _ := st
  let d := validateDocumentsFindings inv
  let f := validateFiscalCodesFindings inv
  let p := validateProductsCalculationsFindings inv
  let t := validateTaxCalculationsFindings inv
  let s := validateTotalsFindings inv
  let c := validateConsistencyFindings inv
  let errors := d.1 ++ f.1 ++ p ++ t.1 ++ s.1 ++ c.1
  let warnings := d.2 ++ f.2 ++ t.2 ++ s.2 ++ c.2
  ((errors, warnings), compile_validation_result errors warnings now)

/-- `FiscalCalculator._safe_decimal`: `None` becomes the default; numeric
values are modelled as exact rationals. -/
def safe_decimal (value : Option ℚ) (default : ℚ := 0) : ℚ := value.getD default

/-- The calculator's own `tax_rates['icms_interno']` table. -/
def calculatorIcmsInterno : List (String × ℚ) :=
  [("SP", 18.0), ("RJ", 20.0), ("MG", 18.0), ("PR", 19.5), ("SC", 17.0),
   ("RS", 17.0)]

/-- Lookup `self.tax_rates['icms_interno'].get(uf, default)` in the
calculator (no upper-casing there). -/
def calculatorIcmsAliquota (uf : String) : ℚ :=
  ((calculatorIcmsInterno.find? (fun p => p.1 == uf)).map (·.2)).getD 18.0

/-- `FiscalCalculator._classificar_carga_tributaria`. -/
def classificar_carga_tributaria (percentual : ℚ) : String :=
  if percentual < 10 then "Baixa"
  else if percentual < 20 then "Moderada"
  else if percentual < 30 then "Alta"
  else "Muito Alta"

/-- One regime estimate row of `_comparar_regimes_tributarios`. -/
structure RegimeEstimativa where
  impostos_estimados : ℚ
  aliquota_efetiva : ℚ
  deriving Repr, DecidableEq

/-- The `lucro_real` row of `_comparar_regimes_tributarios`. -/
structure RegimeReal where
  impostos_estimados_sem_creditos : ℚ
  aliquota_base : ℚ
  observacao : String
  deriving Repr, DecidableEq

/-- Result of `_comparar_regimes_tributarios`. -/
structure ComparacaoRegimes where
  simples_nacional : RegimeEstimativa
  lucro_presumido : RegimeEstimativa
  lucro_real : RegimeReal
  deriving Repr, DecidableEq

/-- `FiscalCalculator._comparar_regimes_tributarios`. -/
def comparar_regimes_tributarios (faturamento_mensal : ℚ) : ComparacaoRegimes :=
  let fat := faturamento_mensal
  { simples_nacional := ⟨quantizeHU (fat * 10.0 / 100), 10.0⟩,
    lucro_presumido := ⟨quantizeHU (fat * 3.65 / 100), 3.65⟩,
    lucro_real := ⟨quantizeHU (fat * 9.25 / 100), 9.25,
      "Valor pode ser menor com aproveitamento de créditos"⟩ }

/-- A count with up to three example descriptions, used by
`_analisar_produtos`. -/
structure ExemplosContagem where
  quantidade : Nat
  exemplos : List String
  deriving Repr, DecidableEq

/-- Result of `_analisar_produtos` when the product list is nonempty. -/
structure AnaliseProdutos where
  total_produtos : Nat
  valor_medio_produto : ℚ
  produtos_sem_icms : ExemplosContagem
  produtos_sem_pis_cofins : ExemplosContagem
  deriving Repr, DecidableEq

/-- `FiscalCalculator._analisar_produtos`; `none` models the empty dict
returned for an empty product list. -/
def analisar_produtos (produtos : List Produto) : Option AnaliseProdutos :=
  match produtos with
  | [] => none
  | _ =>
    let valor_total := produtos.foldl (fun a p => a + safe_decimal p.valor_total) 0
    let produtos_sem_icms := produtos.filterMap (fun p =>
      if p.impostos.icms = none ∨ p.impostos.icms = some 0 then
        some (p.descricao.getD "N/A")
      else none)
    let produtos_sem_pis_cofins := produtos.filterMap (fun p =>
      if p.impostos.pis = none ∨ p.impostos.cofins = none then
        some (p.descricao.getD "N/A")
      else none)
    some
      { total_produtos := produtos.length,
        valor_medio_produto := quantizeHU (valor_total / (produtos.length : ℚ)),
        produtos_sem_icms := ⟨produtos_sem_icms.length, produtos_sem_icms.take 3⟩,
        produtos_sem_pis_cofins :=
          ⟨produtos_sem_pis_cofins.length, produtos_sem_pis_cofins.take 3⟩ }

/-- The `impostos_calculados` block of `analisar_nota_individual`. -/
structure ImpostosCalculados where
  icms : ℚ
  pis : ℚ
  cofins : ℚ
  ipi : ℚ
  total_impostos : ℚ
  campos_ausentes : List String
  deriving Repr, DecidableEq

/-- The `carga_tributaria` block of `analisar_nota_individual`. -/
structure CargaTributaria where
  percentual : ℚ
  classificacao : String
  valor_total_nf : ℚ
  deriving Repr, DecidableEq

/-- One tax row of the `oportunidades_creditos` block. -/
structure CreditoImposto where
  atual : ℚ
  potencial : ℚ
  recuperavel : ℚ
  ausente : Bool
  deriving Repr, DecidableEq

/-- The `oportunidades_creditos` block of `analisar_nota_individual`. -/
structure OportunidadesCreditos where
  pis : CreditoImposto
  cofins : CreditoImposto
  total_recuperavel_mensal : ℚ
  total_recuperavel_anual : ℚ
  observacao : Option String
  deriving Repr, DecidableEq

/-- The `analise_icms` block of `analisar_nota_individual`. -/
structure AnaliseIcms where
  valor_cobrado : ℚ
  valor_esperado : ℚ
  diferenca : ℚ
  aliquota_uf : ℚ
  base_calculo : ℚ
  status : String
  ausente : Bool
  deriving Repr, DecidableEq

/-- The `contexto_operacao` block of `analisar_nota_individual`. -/
structure ContextoOperacao where
  interestadual : Bool
  uf_emitente : String
  uf_destinatario : String
  total_produtos : Nat
  deriving Repr, DecidableEq

/-- The `qualidade_dados` block of `analisar_nota_individual`. -/
structure QualidadeDados where
  campos_none_total : Nat
  campos_none_lista : List String
  integridade_dados : String
  deriving Repr, DecidableEq

/-- Result of `analisar_nota_individual`. -/
structure NotaMetrics where
  impostos_calculados : ImpostosCalculados
  carga_tributaria : CargaTributaria
  oportunidades_creditos : OportunidadesCreditos
  analise_icms : AnaliseIcms
  comparacao_regimes : ComparacaoRegimes
  analise_produtos : Option AnaliseProdutos
  contexto_operacao : ContextoOperacao
  qualidade_dados : QualidadeDados
  deriving Repr, DecidableEq

/-- `FiscalCalculator.analisar_nota_individual` (the per-invoice metrics
entry point `compute_invoice_metrics`). -/
def analisar_nota_individual (inv : Invoice) : NotaMetrics :=
  let totais := inv.totais
  let produtos := inv.produtos
  let emitente_uf := inv.emitente.endereco_uf.getD "SP"
  let destinatario_uf := inv.destinatario.endereco_uf.getD "SP"
  let valor_total := safe_decimal totais.valor_total_nf
  let valor_icms := safe_decimal totais.valor_icms
  let valor_pis := safe_decimal totais.valor_pis
  let valor_cofins := safe_decimal totais.valor_cofins
  let valor_ipi := safe_decimal totais.valor_ipi
  let campos_none :=
    (if totais.valor_pis = none then ["PIS"] else []) ++
    (if totais.valor_cofins = none then ["COFINS"] else []) ++
    (if totais.valor_icms = none then ["ICMS"] else [])
  let total_impostos := quantizeHU (valor_icms + valor_pis + valor_cofins + valor_ipi)
  let carga_tributaria :=
    if valor_total > 0 then quantizeHU (total_impostos / valor_total * 100) else 0
  let credito_pis_potencial := quantizeHU (valor_total * 1.65 / 100)
  let credito_cofins_potencial := quantizeHU (valor_total * 7.6 / 100)
  let credito_pis_recuperavel := max 0 (credito_pis_potencial - valor_pis)
  let credito_cofins_recuperavel := max 0 (credito_cofins_potencial - valor_cofins)
  let credito_total_recuperavel := credito_pis_recuperavel + credito_cofins_recuperavel
  let aliquota_icms_uf := calculatorIcmsAliquota emitente_uf
  let base_icms := safe_decimal totais.base_calculo_icms
  let icms_esperado :=
    if base_icms > 0 then quantizeHU (base_icms * aliquota_icms_uf / 100) else 0
  let diferenca_icms := valor_icms - icms_esperado
  { impostos_calculados :=
      ⟨valor_icms, valor_pis, valor_cofins, valor_ipi, total_impostos, campos_none⟩,
    carga_tributaria :=
      ⟨carga_tributaria, classificar_carga_tributaria carga_tributaria, valor_total⟩,
    oportunidades_creditos :=
      { pis := ⟨valor_pis, credito_pis_potencial, credito_pis_recuperavel,
          totais.valor_pis.isNone⟩,
        cofins := ⟨valor_cofins, credito_cofins_potencial,
          credito_cofins_recuperavel, totais.valor_cofins.isNone⟩,
        total_recuperavel_mensal := credito_total_recuperavel,
        total_recuperavel_anual := credito_total_recuperavel * 12,
        observacao :=
          if campos_none ≠ [] then
            some "Valores calculados considerando campos ausentes como R$ 0,00"
          else none },
    analise_icms :=
      ⟨valor_icms, icms_esperado, diferenca_icms, aliquota_icms_uf, base_icms,
        if |diferenca_icms| < 1 / 2 then "correto" else "verificar",
        totais.valor_icms.isNone⟩,
    comparacao_regimes := comparar_regimes_tributarios valor_total,
    analise_produtos := analisar_produtos produtos,
    contexto_operacao :=
      ⟨emitente_uf != destinatario_uf, emitente_uf, destinatario_uf, produtos.length⟩,
    qualidade_dados :=
      ⟨campos_none.length, campos_none,
        if campos_none = [] then "completa" else "parcial"⟩ }

/-- Per-supplier accumulator (`fornecedores[emitente]`). -/
structure FornAcc where
  valor : ℚ
  quantidade : Nat
  deriving Repr, DecidableEq

/-- Per-product accumulator (`produtos_dict[codigo]`). -/
structure ProdAcc where
  descricao : String
  quantidade : ℚ
  valor_total : ℚ
  deriving Repr, DecidableEq

/-- Per-month accumulator (`notas_por_mes[mes]`). -/
structure MesAcc where
  quantidade : Nat
  valor : ℚ
  deriving Repr, DecidableEq

/-- The `campos_none_contador` dictionary. -/
structure NoneContador where
  pis : Nat
  cofins : Nat
  icms : Nat
  ipi : Nat
  deriving Repr, DecidableEq

/-- Everything the single aggregation pass of `analisar_multiplas_notas`
accumulates. -/
structure AggAcc where
  faturamento_total : ℚ
  impostos_total : ℚ
  icms_total : ℚ
  pis_total : ℚ
  cofins_total : ℚ
  ipi_total : ℚ
  fornecedores : List (String × FornAcc)
  produtos_dict : List (String × ProdAcc)
  notas_por_mes : List (String × MesAcc)
  notas_com_none : Nat
  contador : NoneContador
  deriving Repr, DecidableEq

/-- Insertion-ordered dictionary update: `if k not in d: d[k] = init` then
mutate `d[k]` with `f`, as Python dicts preserve insertion order. -/
def updAssoc {α : Type} (l : List (String × α)) (k : String) (init : α)
    (f : α → α) : List (String × α) :=
  if l.any (fun p => p.1 == k) then
    l.map (fun p => if p.1 == k then (p.1, f p.2) else p)
  else l ++ [(k, f init)]

/-- First 7 characters of a string (`data_emissao[:7]`). -/
def strTake7 (s : String) : String := ⟨s.data.take 7⟩

/-- The loop body of `analisar_multiplas_notas` for one invoice. -/
def aggStep (acc : AggAcc) (inv : Invoice) : AggAcc :=
  let totais := inv.totais
  let valor_nf := safe_decimal totais.valor_total_nf
  let icms := safe_decimal totais.valor_icms
  let pis := safe_decimal totais.valor_pis
  let cofins := safe_decimal totais.valor_cofins
  let ipi := safe_decimal totais.valor_ipi
  let pisNone := totais.valor_pis.isNone
  let cofinsNone := totais.valor_cofins.isNone
  let icmsNone := totais.valor_icms.isNone
  let ipiNone := totais.valor_ipi.isNone
  let nota_tem_none := pisNone || cofinsNone || icmsNone || ipiNone
  let emitente := inv.emitente.razao_social.getD "N/A"
  let produtos_dict := inv.produtos.foldl (fun d prod =>
    updAssoc d (prod.codigo.getD "N/A") ⟨prod.descricao.getD "N/A", 0, 0⟩
      (fun a => ⟨a.descricao, a.quantidade + safe_decimal prod.quantidade,
        a.valor_total + safe_decimal prod.valor_total⟩)) acc.produtos_dict
  let data_emissao := inv.identificacao.data_emissao.getD ""
  let notas_por_mes :=
    if data_emissao ≠ "" then
      updAssoc acc.notas_por_mes (strTake7 data_emissao) ⟨0, 0⟩
        (fun m => ⟨m.quantidade + 1, m.valor + valor_nf⟩)
    else acc.notas_por_mes
  { faturamento_total := acc.faturamento_total + valor_nf,
    impostos_total := acc.impostos_total + (icms + pis + cofins + ipi),
    icms_total := acc.icms_total + icms,
    pis_total := acc.pis_total + pis,
    cofins_total := acc.cofins_total + cofins,
    ipi_total := acc.ipi_total + ipi,
    fornecedores := updAssoc acc.fornecedores emitente ⟨0, 0⟩
      (fun a => ⟨a.valor + valor_nf, a.quantidade + 1⟩),
    produtos_dict := produtos_dict,
    notas_por_mes := notas_por_mes,
    notas_com_none := acc.notas_com_none + (if nota_tem_none then 1 else 0),
    contador :=
      ⟨acc.contador.pis + (if pisNone then 1 else 0),
       acc.contador.cofins + (if cofinsNone then 1 else 0),
       acc.contador.icms + (if icmsNone then 1 else 0),
       acc.contador.ipi + (if ipiNone then 1 else 0)⟩ }

/-- The empty accumulator the aggregation pass starts from. -/
def aggInit : AggAcc := ⟨0, 0, 0, 0, 0, 0, [], [], [], 0, ⟨0, 0, 0, 0⟩⟩

/-- The accumulator after the aggregation pass over a list of invoices. -/
def aggAcc (invs : List Invoice) : AggAcc := invs.foldl aggStep aggInit

/-- One entry of `top_fornecedores`. -/
structure FornEntry where
  nome : String
  valor_total : ℚ
  quantidade_notas : Nat
  percentual_faturamento : ℚ
  deriving Repr, DecidableEq

/-- One entry of `top_produtos`. -/
structure ProdEntry where
  codigo : String
  descricao : String
  quantidade_total : ℚ
  valor_total : ℚ
  deriving Repr, DecidableEq

/-- One entry of `evolucao_temporal`. -/
structure MesEntry where
  mes : String
  quantidade_notas : Nat
  faturamento : ℚ
  deriving Repr, DecidableEq

/-- The `metricas_gerais` block. -/
structure MetricasGerais where
  total_notas : Nat
  faturamento_total : ℚ
  ticket_medio : ℚ
  total_fornecedores : Nat
  total_produtos_unicos : Nat
  deriving Repr, DecidableEq

/-- The `impostos_agregados` block. -/
structure ImpostosAgregados where
  icms_total : ℚ
  pis_total : ℚ
  cofins_total : ℚ
  ipi_total : ℚ
  total_impostos : ℚ
  deriving Repr, DecidableEq

/-- The `distribuicao` sub-block of `carga_tributaria_agregada`. -/
structure Distribuicao where
  icms_percent : ℚ
  pis_percent : ℚ
  cofins_percent : ℚ
  deriving Repr, DecidableEq

/-- The `carga_tributaria_agregada` block. -/
structure CargaAgregada where
  percentual : ℚ
  classificacao : String
  distribuicao : Distribuicao
  deriving Repr, DecidableEq

/-- The `analise_concentracao` block. -/
structure AnaliseConcentracao where
  concentracao_top3_percent : ℚ
  nivel_risco : String
  deriving Repr, DecidableEq

/-- The batch `qualidade_dados` block. -/
structure AggQualidade where
  notas_com_campos_none : Nat
  percentual_notas_incompletas : ℚ
  campos_none_por_tipo : NoneContador
  observacao : String
  deriving Repr, DecidableEq

/-- Result of `analisar_multiplas_notas` for a nonempty batch. -/
structure AggMetrics where
  metricas_gerais : MetricasGerais
  impostos_agregados : ImpostosAgregados
  carga_tributaria_agregada : CargaAgregada
  top_fornecedores : List FornEntry
  analise_concentracao : AnaliseConcentracao
  top_produtos : List ProdEntry
  comparacao_regimes : ComparacaoRegimes
  evolucao_temporal : List MesEntry
  qualidade_dados : AggQualidade
  deriving Repr, DecidableEq

/-- Byte-wise string order, modelling Python's string comparison for the
chronological month sort (keys are `YYYY-MM` strings). -/
def strLeB : List Char → List Char → Bool
  | [], _ => true
  | _ :: _, [] => false
  | a :: as, b :: bs =>
    if a.toNat < b.toNat then true
    else if b.toNat < a.toNat then false
    else strLeB as bs

/-- The computations `analisar_multiplas_notas` performs after the
aggregation pass.  Python's `sorted` is a stable sort, so it is modelled by
insertion sort, whose output a stable sort uniquely determines. -/
def finalizeAgg (total_notas : Nat) (acc : AggAcc) : AggMetrics :=
  let faturamento_total := acc.faturamento_total
  let impostos_total := acc.impostos_total
  let carga_tributaria :=
    if faturamento_total > 0 then
      quantizeHU (impostos_total / faturamento_total * 100)
    else 0
  let ticket_medio :=
    if total_notas > 0 then quantizeHU (faturamento_total / (total_notas : ℚ))
    else 0
  let fornEntries : List FornEntry := acc.fornecedores.map (fun p =>
    ⟨p.1, p.2.valor, p.2.quantidade,
      if faturamento_total > 0 then
        quantizeHU (p.2.valor / faturamento_total * 100)
      else 0⟩)
  let top_fornecedores :=
    (fornEntries.insertionSort (fun a b => b.valor_total ≤ a.valor_total)).take 10
  let prodEntries : List ProdEntry := acc.produtos_dict.map (fun p =>
    ⟨p.1, p.2.descricao, p.2.quantidade, p.2.valor_total⟩)
  let top_produtos :=
    (prodEntries.insertionSort (fun a b => b.valor_total ≤ a.valor_total)).take 10
  let concentracao_top3 :=
    ((top_fornecedores.take 3).map (fun f => f.percentual_faturamento)).sum
  let evolucao_temporal :=
    (acc.notas_por_mes.insertionSort
      (fun a b => strLeB a.1.data b.1.data = true)).map
      (fun p => (⟨p.1, p.2.quantidade, p.2.valor⟩ : MesEntry))
  { metricas_gerais :=
      ⟨total_notas, faturamento_total, ticket_medio, acc.fornecedores.length,
        acc.produtos_dict.length⟩,
    impostos_agregados :=
      ⟨acc.icms_total, acc.pis_total, acc.cofins_total, acc.ipi_total,
        impostos_total⟩,
    carga_tributaria_agregada :=
      ⟨carga_tributaria, classificar_carga_tributaria carga_tributaria,
        ⟨if impostos_total > 0 then
            quantizeHU (acc.icms_total / impostos_total * 100) else 0,
         if impostos_total > 0 then
            quantizeHU (acc.pis_total / impostos_total * 100) else 0,
         if impostos_total > 0 then
            quantizeHU (acc.cofins_total / impostos_total * 100) else 0⟩⟩,
    top_fornecedores := top_fornecedores,
    analise_concentracao :=
      ⟨concentracao_top3,
        if concentracao_top3 > 70 then "alto"
        else if concentracao_top3 > 50 then "medio"
        else "baixo"⟩,
    top_produtos := top_produtos,
    comparacao_regimes := comparar_regimes_tributarios faturamento_total,
    evolucao_temporal := evolucao_temporal,
    qualidade_dados :=
      ⟨acc.notas_com_none,
        if total_notas > 0 then
          quantizeHU ((acc.notas_com_none : ℚ) / (total_notas : ℚ) * 100)
        else 0,
        acc.contador,
        if acc.notas_com_none > 0 then
          toString acc.notas_com_none ++ " de " ++ toString total_notas ++
            " notas possuem campos ausentes (None)"
        else "Todos os campos preenchidos"⟩ }

/-- `FiscalCalculator.analisar_multiplas_notas` (the batch entry point
`compute_aggregate_metrics`); `none` models the empty dict returned for an
empty input list. -/
def analisar_multiplas_notas (invoices_data : List Invoice) : Option AggMetrics :=
  if invoices_data.isEmpty then none
  else some (finalizeAgg invoices_data.length (aggAcc invoices_data))

/-! ## Helper lemmas -/

theorem weightedSum_nil_right (l : List Nat) : weightedSum l [] = 0 := by
  cases l <;> rfl

theorem weightedSum_set (ws : List Nat) :
    ∀ (l : List Nat) (i e : Nat), ws.length ≤ i →
      weightedSum (l.set i e) ws = weightedSum l ws := by
  induction ws with
  | nil => intro l i e _; rw [weightedSum_nil_right, weightedSum_nil_right]
  | cons w ws ih =>
    intro l i e h
    cases l with
    | nil => rfl
    | cons x xs =>
      cases i with
      | zero => simp at h
      | succ i =>
        simp only [List.set]
        show x * w + weightedSum (xs.set i e) ws = x * w + weightedSum xs ws
        rw [ih xs i e (by simpa using h)]

theorem getD_set_self :
    ∀ (l : List Nat) (i e : Nat), i < l.length → (l.set i e).getD i 0 = e := by
  intro l
  induction l with
  | nil => intro i e h; simp at h
  | cons x xs ih =>
    intro i e h
    cases i with
    | zero => rfl
    | succ i =>
      simp only [List.set]
      show (xs.set i e).getD i 0 = e
      exact ih i e (by simpa using h)

theorem getD_set_ne :
    ∀ (l : List Nat) (i j e : Nat), i ≠ j → (l.set i e).getD j 0 = l.getD j 0 := by
  intro l
  induction l with
  | nil => intro i j e _; rfl
  | cons x xs ih =>
    intro i j e hij
    cases i with
    | zero =>
      cases j with
      | zero => exact absurd rfl hij
      | succ j => rfl
    | succ i =>
      cases j with
      | zero => rfl
      | succ j =>
        simp only [List.set]
        show (xs.set i e).getD j 0 = xs.getD j 0
        exact ih i j e (fun h => hij (by rw [h]))

/-! ## C1: CNPJ check-digit validation -/

/-- C1 counterexample: the all-zero 14-digit sequence satisfies both
check-digit equations (both weighted sums are 0, remainder 0 < 2, so both
check digits are 0, matching digits 12 and 13), yet `validate_cnpj` returns
ok=false for it, because of the all-repeated-digits rejection that the claim
omits. -/
theorem c1_counterexample :
    (List.replicate 14 0).getD 12 0 = cnpjDigit1 (List.replicate 14 0) ∧
    (List.replicate 14 0).getD 13 0 = cnpjDigit2 (List.replicate 14 0) ∧
    (validateCnpjDigits (List.replicate 14 0)).1 = false := by
  decide

/-- C1 (amended): for every 14-digit sequence that is not an
all-repeated-digit sequence and whose digits satisfy the two check-digit
equations (weights `[5,4,3,2,9,8,7,6,5,4,3,2]` and
`[6,5,4,3,2,9,8,7,6,5,4,3,2]`, modulo 11, remainder < 2 giving 0 and
otherwise 11 - remainder), `validate_cnpj` returns ok=true; and flipping
either single trailing check digit to any other value makes it return
ok=false. -/
theorem c1_cnpj_check_digits (ds : List Nat) (hlen : ds.length = 14)
    (hrep : isRepdigit 14 ds = false)
    (h1 : ds.getD 12 0 = cnpjDigit1 ds) (h2 : ds.getD 13 0 = cnpjDigit2 ds) :
    (validateCnpjDigits ds).1 = true ∧
    (∀ e, e ≠ ds.getD 12 0 → (validateCnpjDigits (ds.set 12 e)).1 = false) ∧
    (∀ e, e ≠ ds.getD 13 0 → (validateCnpjDigits (ds.set 13 e)).1 = false) := by
  refine ⟨?_, ?_, ?_⟩
  · unfold validateCnpjDigits
    split_ifs with hA hB hC hD
    · exact absurd hlen hA
    · rw [hrep] at hB; exact absurd hB (by simp)
    · exact absurd h1 hC
    · exact absurd h2 hD
    · rfl
  · intro e he
    have hd1 : cnpjDigit1 (ds.set 12 e) = cnpjDigit1 ds := by
      unfold cnpjDigit1
      rw [weightedSum_set cnpjWeight1 ds 12 e (by decide)]
    have hg : (ds.set 12 e).getD 12 0 = e :=
      getD_set_self ds 12 e (by omega)
    unfold validateCnpjDigits
    split_ifs with hA hB hC hD
    any_goals rfl
    exfalso
    rw [not_ne_iff, hg, hd1] at hC
    exact he (hC.trans h1.symm)
  · intro e he
    have hd2 : cnpjDigit2 (ds.set 13 e) = cnpjDigit2 ds := by
      unfold cnpjDigit2
      rw [weightedSum_set cnpjWeight2 ds 13 e (by decide)]
    have hg13 : (ds.set 13 e).getD 13 0 = e :=
      getD_set_self ds 13 e (by omega)
    unfold validateCnpjDigits
    split_ifs with hA hB hC hD
    any_goals rfl
    exfalso
    rw [not_ne_iff, hg13, hd2] at hD
    exact he (hD.trans h2.symm)

/-- C1 witness: the concrete valid CNPJ 11.222.333/0001-81 is accepted, and
flipping each of its two check digits (8 and 1) to 0 is rejected. -/
theorem c1_witness :
    (validateCnpjDigits [1, 1, 2, 2, 2, 3, 3, 3, 0, 0, 0, 1, 8, 1]).1 = true ∧
    (validateCnpjDigits ([1, 1, 2, 2, 2, 3, 3, 3, 0, 0, 0, 1, 8, 1].set 12 0)).1
      = false ∧
    (validateCnpjDigits ([1, 1, 2, 2, 2, 3, 3, 3, 0, 0, 0, 1, 8, 1].set 13 0)).1
      = false := by
  have h := c1_cnpj_check_digits [1, 1, 2, 2, 2, 3, 3, 3, 0, 0, 0, 1, 8, 1]
    (by decide) (by decide) (by decide) (by decide)
  exact ⟨h.1, h.2.1 0 (by decide), h.2.2 0 (by decide)⟩

/-! ## C8: access-key validation and decomposition -/

theorem take_slice (l : List Nat) {a b : Nat} (h : a ≤ b) :
    l.take a ++ slice l a b = l.take b := by
  rw [slice, ← List.take_add, Nat.add_sub_cancel' h]

/-- C8: every 44-digit sequence whose last digit is the modulo-11 check
digit computed over the preceding 43 digits (weights cycling 2..9
right-to-left with the terminal [2,3,4] adjustment, remainder 0 or 1 giving
0, otherwise 11 - remainder) is accepted by `validate_chave_acesso`, and
the decomposed fields (uf 2, ano_mes 4, cnpj 14, modelo 2, serie 3,
numero 9, tipo_emissao 1, codigo 8, dv 1) concatenate back to the original
sequence. -/
theorem c8_chave_acesso (ds : List Nat) (hlen : ds.length = 44)
    (hdv : ds.getD 43 0 = chaveExpectedDv ds) :
    (validateChaveDigits ds).1 = true ∧
    (validateChaveDigits ds).2.2.uf ++ (validateChaveDigits ds).2.2.ano_mes ++
      (validateChaveDigits ds).2.2.cnpj ++ (validateChaveDigits ds).2.2.modelo ++
      (validateChaveDigits ds).2.2.serie ++ (validateChaveDigits ds).2.2.numero ++
      (validateChaveDigits ds).2.2.tipo_emissao ++
      (validateChaveDigits ds).2.2.codigo ++ (validateChaveDigits ds).2.2.dv
      = ds := by
  have hval : validateChaveDigits ds =
      (true, "Chave de acesso válida",
        ⟨slice ds 0 2, slice ds 2 6, slice ds 6 20, slice ds 20 22,
          slice ds 22 25, slice ds 25 34, slice ds 34 35, slice ds 35 43,
          slice ds 43 44⟩) := by
    unfold validateChaveDigits
    split_ifs with hA hB
    · exact absurd hlen hA
    · exact absurd hdv hB
    · rfl
  rw [hval]
  refine ⟨rfl, ?_⟩
  show slice ds 0 2 ++ slice ds 2 6 ++ slice ds 6 20 ++ slice ds 20 22 ++
    slice ds 22 25 ++ slice ds 25 34 ++ slice ds 34 35 ++ slice ds 35 43 ++
    slice ds 43 44 = ds
  rw [show slice ds 0 2 = ds.take 2 by simp [slice],
    take_slice ds (by omega : 2 ≤ 6), take_slice ds (by omega : 6 ≤ 20),
    take_slice ds (by omega : 20 ≤ 22), take_slice ds (by omega : 22 ≤ 25),
    take_slice ds (by omega : 25 ≤ 34), take_slice ds (by omega : 34 ≤ 35),
    take_slice ds (by omega : 35 ≤ 43), take_slice ds (by omega : 43 ≤ 44),
    ← hlen, List.take_length]

/-- C8 witness: the all-zero 44-digit key has check digit 0 (weighted sum
0, remainder 0) and is accepted, with fields concatenating back to it. -/
theorem c8_witness :
    (validateChaveDigits (List.replicate 44 0)).1 = true ∧
    (validateChaveDigits (List.replicate 44 0)).2.2.uf ++
      (validateChaveDigits (List.replicate 44 0)).2.2.ano_mes ++
      (validateChaveDigits (List.replicate 44 0)).2.2.cnpj ++
      (validateChaveDigits (List.replicate 44 0)).2.2.modelo ++
      (validateChaveDigits (List.replicate 44 0)).2.2.serie ++
      (validateChaveDigits (List.replicate 44 0)).2.2.numero ++
      (validateChaveDigits (List.replicate 44 0)).2.2.tipo_emissao ++
      (validateChaveDigits (List.replicate 44 0)).2.2.codigo ++
      (validateChaveDigits (List.replicate 44 0)).2.2.dv
      = List.replicate 44 0 :=
  c8_chave_acesso (List.replicate 44 0) (by decide) (by decide)

/-! ## C7: line-total arithmetic check -/

/-- C7: `validate_product_calculation` returns ok exactly when the declared
total is within the tolerance of `round(qty * unit_price, 2)`, with the
boundary inclusive; concretely, with the default tolerance 0.02 the inputs
 (2, 10.00, 20.00) and (2, 10.00, 20.02) pass and (2, 10.00, 20.03) fails. -/
theorem c7_line_total :
    (∀ quantidade valor_unitario valor_total tolerance : ℚ,
      ((validate_product_calculation quantidade valor_unitario valor_total
          "Produto" tolerance).1 = true ↔
        |quantizeHE (quantidade * valor_unitario) - valor_total| ≤ tolerance)) ∧
    (validate_product_calculation 2 10 20).1 = true ∧
    (validate_product_calculation 2 10 20.02).1 = true ∧
    (validate_product_calculation 2 10 20.03).1 = false := by
  refine ⟨?_, ?_, ?_, ?_⟩
  · intro q u t tol
    unfold validate_product_calculation
    dsimp only
    split_ifs with h
    · exact iff_of_false (by simp) (not_le.mpr h)
    · exact iff_of_true rfl (not_lt.mp h)
  · norm_num [validate_product_calculation, quantizeHE, roundHE]
  · have habs : |(1 : ℚ) / 50| = 1 / 50 := abs_of_nonneg (by norm_num)
    norm_num [validate_product_calculation, quantizeHE, roundHE, habs]
  · have habs : |(3 : ℚ) / 100| = 3 / 100 := abs_of_nonneg (by norm_num)
    norm_num [validate_product_calculation, quantizeHE, roundHE, habs]

/-! ## C2: score, status and fitness compilation -/

theorem length_filter_crit_le (l : List VError) :
    (l.filter (fun e => e.severity == "critico")).length ≤
    (l.filter (fun e => e.severity == "critico" || e.severity == "erro")).length := by
  induction l with
  | nil => simp
  | cons x xs ih =>
    simp only [List.filter_cons]
    by_cases hx : x.severity == "critico"
    · simp only [hx, Bool.true_or, if_pos, List.length_cons]
      omega
    · by_cases he : x.severity == "erro"
      · simp only [hx, he, Bool.false_or, if_pos, if_neg, Bool.false_eq_true,
          not_false_iff, List.length_cons]
        omega
      · simp only [hx, he, Bool.or_self, Bool.false_eq_true, not_false_iff,
          if_neg, Bool.false_or]
        omega

theorem compile_spec (errors warnings : List VError) (now : String) :
    let r := compile_validation_result errors warnings now
    r.validacao_geral.score_conformidade =
      max 0 (100 - 25 * (r.validacao_geral.total_erros_criticos : ℤ) -
        10 * r.validacao_geral.total_erros -
        3 * (r.validacao_geral.total_avisos : ℤ)) ∧
    (r.validacao_geral.status = "invalido" ↔
      (0 < r.validacao_geral.total_erros_criticos ∨
        0 < r.validacao_geral.total_erros)) ∧
    (r.validacao_geral.status = "com_avisos" ↔
      (r.validacao_geral.total_erros_criticos = 0 ∧
        r.validacao_geral.total_erros = 0 ∧
        0 < r.validacao_geral.total_avisos)) ∧
    (r.validacao_geral.status = "valido" ↔
      (r.validacao_geral.total_erros_criticos = 0 ∧
        r.validacao_geral.total_erros = 0 ∧
        r.validacao_geral.total_avisos = 0)) ∧
    (r.validacao_geral.apto_para_processamento = true ↔
      ¬ r.validacao_geral.status = "invalido") := by
  have hle := length_filter_crit_le errors
  have hvv : ("valido" : String) ≠ "invalido" := by decide
  have hca : ("com_avisos" : String) ≠ "invalido" := by decide
  unfold compile_validation_result
  set C := (errors.filter (fun e => e.severity == "critico")).length with hC
  set E := (errors.filter
    (fun e => e.severity == "critico" || e.severity == "erro")).length with hE
  set W := (errors.filter (fun e => e.severity == "aviso")).length +
    warnings.length with hW
  refine ⟨?_, ?_, ?_, ?_, ?_⟩
  · show max 0 (100 - (C : ℤ) * 25 - ((E : ℤ) - (C : ℤ)) * 10 - (W : ℤ) * 3) =
      max 0 (100 - 25 * (C : ℤ) - 10 * ((E : ℤ) - (C : ℤ)) - 3 * (W : ℤ))
    congr 1
    ring
  · show (if 0 < C then ("invalido", false)
        else if 0 < E then ("invalido", false)
        else if 0 < W then ("com_avisos", true)
        else ("valido", true)).1 = "invalido" ↔
      (0 < C ∨ 0 < (E : ℤ) - (C : ℤ))
    split_ifs with h1 h2 h3
    · simp [h1]
    · simp only [not_lt, Nat.le_zero] at h1
      refine iff_of_true rfl (Or.inr ?_)
      rw [h1]
      simp only [Nat.cast_zero, sub_zero]
      exact_mod_cast h2
    · simp only [not_lt, Nat.le_zero] at h1 h2
      refine iff_of_false hca ?_
      rintro (h | h)
      · omega
      · rw [h1, h2] at h
        simp at h
    · simp only [not_lt, Nat.le_zero] at h1 h2
      refine iff_of_false hvv ?_
      rintro (h | h)
      · omega
      · rw [h1, h2] at h
        simp at h
  · show (if 0 < C then ("invalido", false)
        else if 0 < E then ("invalido", false)
        else if 0 < W then ("com_avisos", true)
        else ("valido", true)).1 = "com_avisos" ↔
      (C = 0 ∧ (E : ℤ) - (C : ℤ) = 0 ∧ 0 < W)
    split_ifs with h1 h2 h3
    · exact iff_of_false (by decide) (by rintro ⟨hc, -, -⟩; omega)
    · exact iff_of_false (by decide) (by rintro ⟨hc, he, -⟩; omega)
    · exact iff_of_true rfl ⟨by omega, by omega, h3⟩
    · exact iff_of_false (by decide) (by rintro ⟨-, -, hw⟩; omega)
  · show (if 0 < C then ("invalido", false)
        else if 0 < E then ("invalido", false)
        else if 0 < W then ("com_avisos", true)
        else ("valido", true)).1 = "valido" ↔
      (C = 0 ∧ (E : ℤ) - (C : ℤ) = 0 ∧ W = 0)
    split_ifs with h1 h2 h3
    · exact iff_of_false (by decide) (by rintro ⟨hc, -, -⟩; omega)
    · exact iff_of_false (by decide) (by rintro ⟨hc, he, -⟩; omega)
    · exact iff_of_false (by decide) (by rintro ⟨-, -, hw⟩; omega)
    · exact iff_of_true rfl ⟨by omega, by omega, by omega⟩
  · show (if 0 < C then ("invalido", false)
        else if 0 < E then ("invalido", false)
        else if 0 < W then ("com_avisos", true)
        else ("valido", true)).2 = true ↔
      ¬ (if 0 < C then ("invalido", false)
        else if 0 < E then ("invalido", false)
        else if 0 < W then ("com_avisos", true)
        else ("valido", true)).1 = "invalido"
    split_ifs with h1 h2 h3
    · simp
    · simp
    · simp [hca]
    · simp [hvv]

/-- C2: for every invoice, the compiled report satisfies
score = max(0, 100 - 25*critical - 10*non_critical_errors - 3*warnings)
 (in terms of the counts the report itself carries); the status is
"invalido" exactly when there is a critical or a non-critical error,
"com_avisos" exactly when there is no error of either kind but at least
one warning, and "valido" exactly when all three counts are zero; and
apto_para_processamento holds exactly when the status is not "invalido". -/
theorem c2_validation_report (now : String) (st : List VError × List VError)
    (inv : Invoice) :
    (validate_invoice now st inv).2.validacao_geral.score_conformidade =
      max 0 (100 -
        25 * ((validate_invoice now st inv).2.validacao_geral.total_erros_criticos : ℤ) -
        10 * (validate_invoice now st inv).2.validacao_geral.total_erros -
        3 * ((validate_invoice now st inv).2.validacao_geral.total_avisos : ℤ)) ∧
    ((validate_invoice now st inv).2.validacao_geral.status = "invalido" ↔
      (0 < (validate_invoice now st inv).2.validacao_geral.total_erros_criticos ∨
        0 < (validate_invoice now st inv).2.validacao_geral.total_erros)) ∧
    ((validate_invoice now st inv).2.validacao_geral.status = "com_avisos" ↔
      ((validate_invoice now st inv).2.validacao_geral.total_erros_criticos = 0 ∧
        (validate_invoice now st inv).2.validacao_geral.total_erros = 0 ∧
        0 < (validate_invoice now st inv).2.validacao_geral.total_avisos)) ∧
    ((validate_invoice now st inv).2.validacao_geral.status = "valido" ↔
      ((validate_invoice now st inv).2.validacao_geral.total_erros_criticos = 0 ∧
        (validate_invoice now st inv).2.validacao_geral.total_erros = 0 ∧
        (validate_invoice now st inv).2.validacao_geral.total_avisos = 0)) ∧
    ((validate_invoice now st inv).2.validacao_geral.apto_para_processamento = true ↔
      ¬ (validate_invoice now st inv).2.validacao_geral.status = "invalido") :=
  compile_spec
    ((validateDocumentsFindings inv).1 ++ (validateFiscalCodesFindings inv).1 ++
      validateProductsCalculationsFindings inv ++
      (validateTaxCalculationsFindings inv).1 ++
      (validateTotalsFindings inv).1 ++ (validateConsistencyFindings inv).1)
    ((validateDocumentsFindings inv).2 ++ (validateFiscalCodesFindings inv).2 ++
      (validateTaxCalculationsFindings inv).2 ++
      (validateTotalsFindings inv).2 ++ (validateConsistencyFindings inv).2)
    now

/-! ## C5: empty batch -/

/-- C5: `compute_aggregate_metrics` (`analisar_multiplas_notas`) applied to
the empty invoice list returns the empty structure (the Python `{}`,
modelled as `none`) rather than raising: the function is total in this
embedding and takes the early-return branch. -/
theorem c5_empty_batch : analisar_multiplas_notas [] = none := rfl

/-! ## C9: per-line arithmetic check guard -/

/-- C9 counterexample: a line with quantity -2 and unit price -10 (both
nonzero) and declared total 0 produces no finding, although the arithmetic
check fails at those values (expected 20.00 against declared 0.00): the
code's guard is `qtd > 0 or val_unit > 0 or val_total > 0` (strictly
positive), not "at least one nonzero". -/
theorem c9_counterexample :
    productCalcFindings 0
      { quantidade := some (-2), valor_unitario := some (-10),
        valor_total := some 0 } = [] ∧
    safe_float (some (-2 : ℚ)) ≠ 0 ∧
    (validate_product_calculation (safe_float (some (-2 : ℚ)))
      (safe_float (some (-10 : ℚ))) (safe_float (some (0 : ℚ)))
      "Produto 1").1 = false := by
  refine ⟨?_, by norm_num [safe_float], ?_⟩
  · unfold productCalcFindings
    norm_num [safe_float]
  · have habs : |(20 : ℚ)| = 20 := abs_of_nonneg (by norm_num)
    norm_num [validate_product_calculation, safe_float, quantizeHE, roundHE,
      habs]

/-- C9 (amended): the per-line arithmetic check is evaluated exactly when
at least one of quantity, unit price or line total is strictly positive
after the safe-float coercion: when none is positive (all zero, absent or
negative) the line is skipped without producing any finding, and otherwise
a finding is produced exactly when the check fails. -/
theorem c9_line_check_guard (i : Nat) (p : Produto) :
    (¬(safe_float p.quantidade > 0 ∨ safe_float p.valor_unitario > 0 ∨
        safe_float p.valor_total > 0) →
      productCalcFindings i p = []) ∧
    ((safe_float p.quantidade > 0 ∨ safe_float p.valor_unitario > 0 ∨
        safe_float p.valor_total > 0) →
      (productCalcFindings i p ≠ [] ↔
        (validate_product_calculation (safe_float p.quantidade)
          (safe_float p.valor_unitario) (safe_float p.valor_total)
          (p.descricao.getD ("Produto " ++ toString (i + 1)))).1 = false)) := by
  constructor
  · intro h
    unfold productCalcFindings
    dsimp only
    rw [if_neg h]
  · intro h
    unfold productCalcFindings
    dsimp only
    rw [if_pos h]
    cases hb : (validate_product_calculation (safe_float p.quantidade)
        (safe_float p.valor_unitario) (safe_float p.valor_total)
        (p.descricao.getD ("Produto " ++ toString (i + 1)))).1
    · simp [hb]
    · simp [hb]

/-- C9 witness: an all-absent line is skipped with no finding, and a line
with quantity 1, unit price 2 and declared total 5 is evaluated, fails the
check and produces a finding. -/
theorem c9_witness :
    productCalcFindings 0 ({} : Produto) = [] ∧
    productCalcFindings 0
      { quantidade := some 1, valor_unitario := some 2,
        valor_total := some 5 } ≠ [] := by
  constructor
  · exact (c9_line_check_guard 0 ({} : Produto)).1 (by norm_num [safe_float])
  · refine ((c9_line_check_guard 0
      { quantidade := some 1, valor_unitario := some 2,
        valor_total := some 5 }).2 (by norm_num [safe_float])).mpr ?_
    have habs : |(3 : ℚ)| = 3 := abs_of_nonneg (by norm_num)
    norm_num [validate_product_calculation, safe_float, quantizeHE, roundHE,
      habs]

/-! ## C4: concrete invoice metrics scenario -/

/-- C4: for an invoice with grand total 259.78, ICMS 2.72, PIS and COFINS
absent and IPI 0.0, the computed metrics report total taxes 2.72 (absent
fields treated as 0), missing-field list ["PIS", "COFINS"] in encounter
order (mirrored in the data-quality block), and tax burden percentage 1.05
 (2.72 / 259.78 * 100 rounded half-up to 2 decimals). -/
theorem c4_scenario :
    (analisar_nota_individual
      { totais := { valor_total_nf := some 259.78, valor_icms := some 2.72,
                    valor_pis := none, valor_cofins := none,
                    valor_ipi := some 0 } }).impostos_calculados.total_impostos = 2.72 ∧
    (analisar_nota_individual
      { totais := { valor_total_nf := some 259.78, valor_icms := some 2.72,
                    valor_pis := none, valor_cofins := none,
                    valor_ipi := some 0 } }).impostos_calculados.campos_ausentes
      = ["PIS", "COFINS"] ∧
    (analisar_nota_individual
      { totais := { valor_total_nf := some 259.78, valor_icms := some 2.72,
                    valor_pis := none, valor_cofins := none,
                    valor_ipi := some 0 } }).qualidade_dados.campos_none_lista
      = ["PIS", "COFINS"] ∧
    (analisar_nota_individual
      { totais := { valor_total_nf := some 259.78, valor_icms := some 2.72,
                    valor_pis := none, valor_cofins := none,
                    valor_ipi := some 0 } }).carga_tributaria.percentual = 1.05 := by
  refine ⟨?_, ?_, ?_, ?_⟩ <;>
    (norm_num [analisar_nota_individual, safe_decimal, quantizeHU, roundHU] <;>
      simp)

/-! ## C6: percentages over zero denominators -/

/-- C6: every percentage over a zero denominator is defined as 0 by the
guarding conditionals rather than by dividing: an invoice whose coerced
grand total is 0 gets tax-burden percentage 0; a batch whose accumulated
volume is 0 gives every supplier a 0 percentage of volume; and a batch
whose accumulated taxes are 0 gives a zero tax-distribution block.  (All
divisions in the two entry points sit under such guards, and the embedding
is total.) -/
theorem c6_zero_total_percentages :
    (∀ inv : Invoice, safe_decimal inv.totais.valor_total_nf = 0 →
      (analisar_nota_individual inv).carga_tributaria.percentual = 0) ∧
    (∀ (invs : List Invoice) (r : AggMetrics),
      analisar_multiplas_notas invs = some r →
      (aggAcc invs).faturamento_total = 0 →
      ∀ f ∈ r.top_fornecedores, f.percentual_faturamento = 0) ∧
    (∀ (invs : List Invoice) (r : AggMetrics),
      analisar_multiplas_notas invs = some r →
      (aggAcc invs).impostos_total = 0 →
      r.carga_tributaria_agregada.distribuicao.icms_percent = 0 ∧
      r.carga_tributaria_agregada.distribuicao.pis_percent = 0 ∧
      r.carga_tributaria_agregada.distribuicao.cofins_percent = 0) := by
  refine ⟨?_, ?_, ?_⟩
  · intro inv h
    unfold analisar_nota_individual
    dsimp only
    rw [h]
    simp
  · intro invs r hsome hfat f hf
    unfold analisar_multiplas_notas at hsome
    split_ifs at hsome with hemp
    injection hsome with hr
    subst hr
    unfold finalizeAgg at hf
    dsimp only at hf
    have hf1 := List.take_subset _ _ hf
    have hf2 := (List.perm_insertionSort
      (fun a b : FornEntry => b.valor_total ≤ a.valor_total) _).mem_iff.mp hf1
    obtain ⟨p, _, rfl⟩ := List.mem_map.mp hf2
    dsimp only
    rw [hfat]
    simp
  · intro invs r hsome himp
    unfold analisar_multiplas_notas at hsome
    split_ifs at hsome with hemp
    injection hsome with hr
    subst hr
    unfold finalizeAgg
    dsimp only
    rw [himp]
    simp

/-- C6 witness: a single all-absent invoice gives a batch with zero volume
and zero taxes; its tax-burden percentage, its sole supplier entry's
percentage of volume, and the tax-distribution block are all 0. -/
theorem c6_witness :
    safe_decimal (({} : Invoice)).totais.valor_total_nf = 0 ∧
    (analisar_nota_individual {}).carga_tributaria.percentual = 0 ∧
    (aggAcc [{}]).faturamento_total = 0 ∧
    (aggAcc [{}]).impostos_total = 0 ∧
    ((⟨"N/A", 0, 1, 0⟩ : FornEntry)).percentual_faturamento = 0 ∧
    (finalizeAgg 1 (aggAcc [{}])).carga_tributaria_agregada.distribuicao.icms_percent
      = 0 ∧
    (finalizeAgg 1 (aggAcc [{}])).carga_tributaria_agregada.distribuicao.pis_percent
      = 0 ∧
    (finalizeAgg 1 (aggAcc [{}])).carga_tributaria_agregada.distribuicao.cofins_percent
      = 0 := by
  have hfat : (aggAcc [{}]).faturamento_total = 0 := by
    simp [aggAcc, aggStep, aggInit, safe_decimal]
  have himp : (aggAcc [{}]).impostos_total = 0 := by
    simp [aggAcc, aggStep, aggInit, safe_decimal]
  have hsome : analisar_multiplas_notas [({} : Invoice)] =
      some (finalizeAgg 1 (aggAcc [{}])) := rfl
  have htop : (finalizeAgg 1 (aggAcc [{}])).top_fornecedores =
      [⟨"N/A", 0, 1, 0⟩] := by
    simp [finalizeAgg, aggAcc, aggStep, aggInit, updAssoc, safe_decimal,
      List.insertionSort, List.orderedInsert]
  have hd := c6_zero_total_percentages.2.2 [{}] _ hsome himp
  refine ⟨rfl, c6_zero_total_percentages.1 {} rfl, hfat, himp, ?_, hd.1, hd.2.1,
    hd.2.2⟩
  exact c6_zero_total_percentages.2.1 [{}] _ hsome hfat ⟨"N/A", 0, 1, 0⟩
    (htop ▸ List.mem_singleton_self _)

/-! ## C3: purity of the entry points -/

/-- C3 counterexample: `validate_invoice`'s report embeds
`datetime.now().isoformat()` as its `timestamp` field, so two successive
calls on the identical input (here the empty invoice, with identical prior
instance state) read different clocks and return outputs that are not
bit-identical. -/
theorem c3_counterexample :
    (validate_invoice "2024-01-01T00:00:00" ([], []) {}).2 ≠
    (validate_invoice "2024-01-01T00:00:01" ([], []) {}).2 := by
  intro h
  exact absurd
    (show ("2024-01-01T00:00:00" : String) = "2024-01-01T00:00:01" from
      congrArg Report.timestamp h)
    (by decide)

/-- C3 (amended): each entry point is a pure function of its input apart
from the timestamp field of `validate_invoice`'s report: the report's
`validacao_geral`, `problemas` and `validador` components, and the
post-call instance state, do not depend on the clock or on the instance
state carried in from previous calls (the method resets its accumulators on
entry); and the two calculator entry points carry no state or clock at all,
so repeated calls on the identical input are bit-identical. -/
theorem c3_pure_up_to_timestamp (t1 t2 : String)
    (s1 s2 : List VError × List VError) (inv : Invoice) :
    (validate_invoice t1 s1 inv).2.validacao_geral =
      (validate_invoice t2 s2 inv).2.validacao_geral ∧
    (validate_invoice t1 s1 inv).2.problemas =
      (validate_invoice t2 s2 inv).2.problemas ∧
    (validate_invoice t1 s1 inv).2.validador =
      (validate_invoice t2 s2 inv).2.validador ∧
    (validate_invoice t1 s1 inv).1 = (validate_invoice t2 s2 inv).1 ∧
    analisar_nota_individual inv = analisar_nota_individual inv ∧
    ∀ invs : List Invoice,
      analisar_multiplas_notas invs = analisar_multiplas_notas invs :=
  ⟨rfl, rfl, rfl, rfl, rfl, fun _ => rfl⟩

/-! ## C10: empty-string access key produces no access-key finding -/

theorem ne_of_head {s t : String} (h : s.data.head? ≠ t.data.head?) : s ≠ t :=
  fun e => h (congrArg (fun u => u.data.head?) e)

theorem produtos_field_ne (x y : String) :
    ("produtos[" ++ x ++ y) ≠ "identificacao.chave_acesso" := by
  obtain ⟨l⟩ := x
  obtain ⟨m⟩ := y
  apply ne_of_head
  have h1 : ("produtos[" ++ (⟨l⟩ : String) ++ (⟨m⟩ : String)).data.head?
      = some 'p' := rfl
  rw [h1]
  decide

theorem totalsField (inv : Invoice) (e : VError)
    (he : e ∈ (validateTotalsFindings inv).1 ∨
      e ∈ (validateTotalsFindings inv).2) :
    e.field ≠ "identificacao.chave_acesso" := by
  unfold validateTotalsFindings at he
  dsimp only at he
  (try split_ifs at he) <;>
    simp only [List.mem_singleton, List.not_mem_nil, or_false, false_or] at he <;>
    (first
      | (rcases he with rfl | rfl <;> (dsimp only; decide))
      | (subst he; dsimp only; decide)
      | simp_all)

theorem productCalcField (i : Nat) (p : Produto) (e : VError)
    (he : e ∈ productCalcFindings i p) :
    e.field ≠ "identificacao.chave_acesso" := by
  unfold productCalcFindings at he
  dsimp only at he
  (try split_ifs at he) <;>
    simp only [List.mem_singleton, List.not_mem_nil, or_false, false_or] at he <;>
    (first
      | (subst he; dsimp only; exact produtos_field_ne _ _)
      | simp_all)

set_option maxHeartbeats 2000000 in
theorem documentsField (inv : Invoice)
    (hc : inv.identificacao.chave_acesso = some "") (e : VError)
    (he : e ∈ (validateDocumentsFindings inv).1 ∨
      e ∈ (validateDocumentsFindings inv).2) :
    e.field ≠ "identificacao.chave_acesso" := by
  unfold validateDocumentsFindings at he
  rw [hc] at he
  rcases hcn : inv.emitente.cnpj with _ | c <;>
    rw [hcn] at he <;>
    dsimp only at he <;>
    (try split_ifs at he) <;>
    simp only [List.mem_append, List.mem_singleton, List.not_mem_nil, or_false,
      false_or] at he <;>
    (first
      | (rcases he with rfl | rfl <;> (dsimp only; decide))
      | (subst he; dsimp only; decide)
      | simp_all)

theorem icmsTaxField (inv : Invoice) (e : VError)
    (he : e ∈ (icmsTaxFindings inv).1 ∨ e ∈ (icmsTaxFindings inv).2) :
    e.field ≠ "identificacao.chave_acesso" := by
  unfold icmsTaxFindings at he
  dsimp only at he
  (try split_ifs at he) <;>
    simp only [List.mem_append, List.mem_singleton, List.not_mem_nil, or_false,
      false_or] at he <;>
    (first
      | (rcases he with rfl | rfl <;> (dsimp only; decide))
      | (subst he; dsimp only; decide)
      | simp_all)

theorem pisTaxField (inv : Invoice) (e : VError)
    (he : e ∈ (pisTaxFindings inv).1 ∨ e ∈ (pisTaxFindings inv).2) :
    e.field ≠ "identificacao.chave_acesso" := by
  unfold pisTaxFindings at he
  dsimp only at he
  (try split_ifs at he) <;>
    simp only [List.mem_append, List.mem_singleton, List.not_mem_nil, or_false,
      false_or] at he <;>
    (first
      | (rcases he with rfl | rfl <;> (dsimp only; decide))
      | (subst he; dsimp only; decide)
      | simp_all)

theorem cofinsTaxField (inv : Invoice) (e : VError)
    (he : e ∈ (cofinsTaxFindings inv).1 ∨ e ∈ (cofinsTaxFindings inv).2) :
    e.field ≠ "identificacao.chave_acesso" := by
  unfold cofinsTaxFindings at he
  dsimp only at he
  (try split_ifs at he) <;>
    simp only [List.mem_append, List.mem_singleton, List.not_mem_nil, or_false,
      false_or] at he <;>
    (first
      | (rcases he with rfl | rfl <;> (dsimp only; decide))
      | (subst he; dsimp only; decide)
      | simp_all)

theorem taxField (inv : Invoice) (e : VError)
    (he : e ∈ (validateTaxCalculationsFindings inv).1 ∨
      e ∈ (validateTaxCalculationsFindings inv).2) :
    e.field ≠ "identificacao.chave_acesso" := by
  unfold validateTaxCalculationsFindings at he
  dsimp only at he
  simp only [List.mem_append, or_assoc] at he
  rcases he with he | he | he | he | he | he
  · exact icmsTaxField inv e (Or.inl he)
  · exact pisTaxField inv e (Or.inl he)
  · exact cofinsTaxField inv e (Or.inl he)
  · exact icmsTaxField inv e (Or.inr he)
  · exact pisTaxField inv e (Or.inr he)
  · exact cofinsTaxField inv e (Or.inr he)

theorem fiscalCodesProductField (i : Nat) (p : Produto) (e : VError)
    (he : e ∈ (fiscalCodesProduct i p).1 ∨ e ∈ (fiscalCodesProduct i p).2) :
    e.field ≠ "identificacao.chave_acesso" := by
  unfold fiscalCodesProduct at he
  rcases hn : p.ncm with _ | n <;> rcases hcf : p.cfop with _ | c <;>
    rw [hn, hcf] at he <;>
    dsimp only at he <;>
    (try split_ifs at he) <;>
    simp only [List.mem_append, List.mem_singleton, List.not_mem_nil, or_false,
      false_or] at he <;>
    (first
      | (rcases he with rfl | rfl <;>
          (dsimp only; exact produtos_field_ne _ _))
      | (subst he; dsimp only; exact produtos_field_ne _ _)
      | simp_all)

theorem fiscalCodesField (inv : Invoice) (e : VError)
    (he : e ∈ (validateFiscalCodesFindings inv).1 ∨
      e ∈ (validateFiscalCodesFindings inv).2) :
    e.field ≠ "identificacao.chave_acesso" := by
  unfold validateFiscalCodesFindings at he
  rcases he with he | he
  · obtain ⟨l, hl, hel⟩ := List.mem_flatten.mp he
    obtain ⟨ip, _, rfl⟩ := List.mem_map.mp hl
    exact fiscalCodesProductField ip.1 ip.2 e (Or.inl hel)
  · obtain ⟨l, hl, hel⟩ := List.mem_flatten.mp he
    obtain ⟨ip, _, rfl⟩ := List.mem_map.mp hl
    exact fiscalCodesProductField ip.1 ip.2 e (Or.inr hel)

theorem productsCalcPhaseField (inv : Invoice) (e : VError)
    (he : e ∈ validateProductsCalculationsFindings inv) :
    e.field ≠ "identificacao.chave_acesso" := by
  unfold validateProductsCalculationsFindings at he
  obtain ⟨l, hl, hel⟩ := List.mem_flatten.mp he
  obtain ⟨ip, _, rfl⟩ := List.mem_map.mp hl
  exact productCalcField ip.1 ip.2 e hel

theorem consistencyField (inv : Invoice) (e : VError)
    (he : e ∈ (validateConsistencyFindings inv).1 ∨
      e ∈ (validateConsistencyFindings inv).2) :
    e.field ≠ "identificacao.chave_acesso" := by
  unfold validateConsistencyFindings at he
  rcases hop : inv.identificacao.tipo_operacao with _ | t <;>
    rw [hop] at he <;> dsimp only at he
  · simp only [List.mem_singleton, List.not_mem_nil, or_false, false_or] at he
    subst he
    dsimp only
    decide
  · rcases he with he | he
    · obtain ⟨l, hl, hel⟩ := List.mem_flatten.mp he
      obtain ⟨ip, _, rfl⟩ := List.mem_map.mp hl
      rcases hcf : ip.2.cfop with _ | c <;>
        rw [hcf] at hel <;>
        dsimp only at hel <;>
        (try split_ifs at hel) <;>
        simp only [List.mem_singleton, List.not_mem_nil] at hel <;>
        (first
          | (subst hel; dsimp only; exact produtos_field_ne _ _)
          | simp_all)
    · simp at he

/-- C10: an invoice whose `identificacao.chave_acesso` is present but equal
to the empty string (as opposed to the absence marker `None`) yields a
validation report with no finding at all on the access-key field: neither
the absence warning nor a malformed-key critical error (the code's guard
`elif chave:` treats a falsy empty string as neither absent nor
malformed). -/
theorem c10_empty_access_key (now : String) (st : List VError × List VError)
    (inv : Invoice) (hc : inv.identificacao.chave_acesso = some "") :
    (validate_invoice now st inv).2.problemas.filter
      (fun e => e.field == "identificacao.chave_acesso") = [] := by
  rw [List.filter_eq_nil_iff]
  intro e he
  simp only [beq_iff_eq]
  simp only [validate_invoice, compile_validation_result, List.mem_append,
    or_assoc] at he
  rcases he with he | he | he | he | he | he | he | he | he | he | he
  · exact documentsField inv hc e (Or.inl he)
  · exact fiscalCodesField inv e (Or.inl he)
  · exact productsCalcPhaseField inv e he
  · exact taxField inv e (Or.inl he)
  · exact totalsField inv e (Or.inl he)
  · exact consistencyField inv e (Or.inl he)
  · exact documentsField inv hc e (Or.inr he)
  · exact fiscalCodesField inv e (Or.inr he)
  · exact taxField inv e (Or.inr he)
  · exact totalsField inv e (Or.inr he)
  · exact consistencyField inv e (Or.inr he)

/-- C10 witness: the concrete invoice whose only content is an
empty-string access key produces a report with no access-key finding. -/
theorem c10_witness :
    ((validate_invoice "2024-01-01T00:00:00" ([], [])
      { identificacao := { chave_acesso := some "" } }).2.problemas.filter
        (fun e => e.field == "identificacao.chave_acesso")) = [] :=
  c10_empty_access_key "2024-01-01T00:00:00" ([], [])
    { identificacao := { chave_acesso := some "" } } rfl

end Fiscal
